import Mathlib

/-!
Shallow embedding of the life-calendar wallpaper engine
(`wallpaper_engine.py`, plus the config round-trip with
`life_calendar_gui.py`), together with theorems settling the spec's
claims about it.

Conventions of the embedding:
* Python dates (`datetime.date`) are triples `(year, month, day)` with a
  validity predicate; date subtraction `(a - b).days` is the difference of
  proleptic-Gregorian ordinals (`Date.rataDie`, matching Python's
  `date.toordinal`).  Comparison of `datetime` values at midnight is the
  chronological order, i.e. comparison of ordinals.
* Python's floor division `//` with a positive divisor is `/` on `ℤ`
  (Euclidean division agrees with floor division when the divisor is
  positive) or `/` on `ℕ`.
* Float formulas are embedded by their exact rational value, floored where
  the code applies `int(...)`:
  - `int(lifespan * 365.2425)` becomes `lifespan * 3652425 / 10000`.
    The constructor clamps `lifespan` to `[1, 150]`; on that range the
    exact product `lifespan * 3652425 / 10000` is never an integer
    (3652425 = 146097 * 25 and 146097 is odd, so 400 never divides
    `lifespan * 146097` for `lifespan ≤ 150`) and its distance to the
    nearest integer is at least 1/400, while the double-precision
    rounding error of `lifespan * 365.2425` is below 1e-10, so the
    truncated float equals the exact floor.
  - `canvas_width * 0.9` becomes `9 * w / 10`, `canvas_height * 0.75`
    becomes `3 * h / 4`, and `cell_size * 0.15` becomes `3 * c / 20`,
    with the same floor-commutes-with-min argument: for canvas sizes in
    the double-exact range the quotients are either exactly representable
    or at least 1/60 away from an integer, far beyond the float error.
* Fallible constructors return `Except String`; raising an exception that
  propagates to the caller is modelled by the error branch of the result.
* Filesystem and process state (lock marker, wallpaper files) are explicit
  state records; the OS primitives the code calls (`os.replace`,
  `os.open(..., O_CREAT | O_EXCL)`, liveness probing) are given their
  documented atomic semantics, with failure injection parameters where a
  claim is about failure behaviour.
-/

namespace LifeCalendar

/-! ### Dates (proleptic Gregorian, as Python's `datetime.date`) -/

/-- `calendar.isleap(y)`: Gregorian leap-year test. -/
def isLeap (y : ℕ) : Bool :=
  (y % 4 == 0 && y % 100 != 0) || y % 400 == 0

/-- Days in a month of year `y` (used by date validity). -/
def daysInMonth (y m : ℕ) : ℕ :=
  if m = 2 then (if isLeap y then 29 else 28)
  else if m = 4 ∨ m = 6 ∨ m = 9 ∨ m = 11 then 30
  else 31

/-- A calendar date, as parsed from a `YYYY-MM-DD` string. -/
structure Date where
  year : ℕ
  month : ℕ
  day : ℕ
deriving DecidableEq, Repr

/-- The dates `datetime.strptime(s, "%Y-%m-%d")` accepts: a real
Gregorian calendar date (year at least 1). -/
def Date.valid (d : Date) : Prop :=
  1 ≤ d.year ∧ 1 ≤ d.month ∧ d.month ≤ 12 ∧ 1 ≤ d.day ∧ d.day ≤ daysInMonth d.year d.month

instance (d : Date) : Decidable d.valid := by
  unfold Date.valid; infer_instance

/-- Days of year `y` strictly before month `m`, in a common (non-leap)
year: the cumulative month lengths 31, 28, 31, 30, ... -/
def daysBeforeMonthCommon (m : ℕ) : ℕ :=
  if m ≤ 1 then 0 else if m = 2 then 31 else if m = 3 then 59
  else if m = 4 then 90 else if m = 5 then 120 else if m = 6 then 151
  else if m = 7 then 181 else if m = 8 then 212 else if m = 9 then 243
  else if m = 10 then 273 else if m = 11 then 304 else 334

/-- Ordinal day-of-year of a date (Jan 1 is day 1), with the leap-day
shift for months after February. -/
def dayOfYearOf (y m d : ℕ) : ℕ :=
  daysBeforeMonthCommon m + (if 3 ≤ m ∧ isLeap y then 1 else 0) + d

/-- Number of days in years 1, ..., y-1 of the proleptic Gregorian
calendar. -/
def daysBeforeYear (y : ℕ) : ℕ :=
  365 * (y - 1) + (y - 1) / 4 - (y - 1) / 100 + (y - 1) / 400

/-- Python's `date.toordinal()`: day number in the proleptic Gregorian
calendar, with `0001-01-01` as day 1.  Differences of ordinals are
exactly `(a - b).days` for `datetime.date` values. -/
def Date.rataDie (dt : Date) : ℕ :=
  daysBeforeYear dt.year + dayOfYearOf dt.year dt.month dt.day

/-! ### Life mode (`LifeCalendarData`) -/

/-- The lifespan clamp in `LifeCalendarData.__init__`:
`max(1, min(lifespan, 150))`. -/
def clampLifespan (lifespan : ℤ) : ℤ :=
  max 1 (min lifespan 150)

/-- `int(self.lifespan * 365.2425)` for the clamped lifespan (exact
rational floor; see the header comment for float fidelity). -/
def lifeTotalDays (clamped : ℤ) : ℤ :=
  clamped * 3652425 / 10000

/-- `LifeCalendarData.calculate`, with the wall-clock date `today` passed
explicitly (the code reads `datetime.now()` at call time).  Returns
`(total_weeks, weeks_lived)`; the stats string is omitted.
`//` is modelled by `/` on `ℤ` (divisors 7 and 10000 are positive, where
Euclidean and floor division agree). -/
def lifeCalculate (dob : Date) (lifespan : ℤ) (today : Date) : ℤ × ℤ :=
  let cl := clampLifespan lifespan
  let daysLived : ℤ := (today.rataDie : ℤ) - (dob.rataDie : ℤ)
  let weeksLived := daysLived / 7
  let totalWeeks := lifeTotalDays cl / 7
  (totalWeeks, min weeksLived totalWeeks)

/-! ### Year mode (`YearCalendarData`) -/

/-- `YearCalendarData.calculate` with the system date passed explicitly.
Returns `(total_days, day_of_year)`; the stats string is omitted.
`(today - date(year, 1, 1)).days` is the difference of ordinals, which
for a valid date is the `ℕ`-subtraction below. -/
def yearCalculate (today : Date) : ℕ × ℕ :=
  let totalDays := if isLeap today.year then 366 else 365
  let dayOfYear := (today.rataDie - (Date.mk today.year 1 1).rataDie) + 1
  (totalDays, min dayOfYear totalDays)

/-! ### Goal mode (`GoalCalendarData`) -/

/-- The state a successfully constructed `GoalCalendarData` holds. -/
structure Goal where
  startD : Date
  endD : Date
  title : String
  subtitle : String
deriving DecidableEq, Repr

/-- Python's `str.strip()` with no argument: drop leading and trailing
whitespace (structurally recursive so that it reduces). -/
def pyStrip (s : String) : String :=
  ⟨((s.data.dropWhile Char.isWhitespace).reverse.dropWhile Char.isWhitespace).reverse⟩

/-- `GoalCalendarData.__init__`.  The date arguments are the results of
`safe_date` on the two strings (`none` = unparsable).  `datetime`
comparison of parsed dates is chronological, i.e. ordinal comparison.
Python's falsy test on the title string is `= ""`; `str.strip` is
`pyStrip`. -/
def goalMake (startOpt endOpt : Option Date) (title subtitle : String) :
    Except String Goal :=
  match startOpt with
  | none => .error "Invalid start date"
  | some s =>
    match endOpt with
    | none => .error "Invalid end date"
    | some e =>
      let t := if title = "" then "GOAL COUNTDOWN" else pyStrip title
      if e.rataDie ≤ s.rataDie then
        .error "End date must be after start date"
      else
        .ok ⟨s, e, t, pyStrip subtitle⟩

/-- `GoalCalendarData.calculate` with the wall-clock date passed
explicitly.  Returns `(total_days, passed_days)`; the stats string is
omitted. -/
def goalCalculate (g : Goal) (today : Date) : ℤ × ℤ :=
  let total : ℤ := (g.endD.rataDie : ℤ) - (g.startD.rataDie : ℤ)
  let passed : ℤ :=
    if today.rataDie < g.startD.rataDie then 0
    else if g.endD.rataDie < today.rataDie then total
    else (today.rataDie : ℤ) - (g.startD.rataDie : ℤ)
  (total, passed)

/-! ### Grid layout (`GridLayout`) -/

/-- The three calendar modes. -/
inductive Mode where
  | life
  | year
  | goal
deriving DecidableEq, Repr

/-- `self.total_units = max(1, total_units)` in `GridLayout.__init__`. -/
def gridTotal (totalUnits : ℕ) : ℕ := max 1 totalUnits

/-- `GridLayout._get_columns` (applied to the clamped unit count). -/
def gridColumns (mode : Mode) (totalUnits : ℕ) : ℕ :=
  match mode with
  | .life => 52
  | .year => 31
  | .goal =>
    if gridTotal totalUnits ≤ 365 then min 52 (gridTotal totalUnits) else 60

/-- `self.rows = (total_units + columns - 1) // columns`. -/
def gridRows (mode : Mode) (totalUnits : ℕ) : ℕ :=
  (gridTotal totalUnits + gridColumns mode totalUnits - 1) / gridColumns mode totalUnits

/-- `self.cell_size = int(min(available_width / columns,
available_height / rows, 20))` with `available_width = 0.9 * w` and
`available_height = 0.75 * h` (exact rational floors; the single final
floor commutes with `min`). -/
def gridCellSize (mode : Mode) (totalUnits w h : ℕ) : ℕ :=
  min (min ((9 * w) / (10 * gridColumns mode totalUnits))
           ((3 * h) / (4 * gridRows mode totalUnits))) 20

/-- `self.gap = int(max(2, cell_size * 0.15))`. -/
def gridGap (mode : Mode) (totalUnits w h : ℕ) : ℕ :=
  max 2 ((3 * gridCellSize mode totalUnits w h) / 20)

/-- `self.grid_width = columns * cell_size + (columns - 1) * gap`. -/
def gridWidth (mode : Mode) (totalUnits w h : ℕ) : ℕ :=
  gridColumns mode totalUnits * gridCellSize mode totalUnits w h +
    (gridColumns mode totalUnits - 1) * gridGap mode totalUnits w h

/-- `self.grid_height = rows * cell_size + (rows - 1) * gap`. -/
def gridHeight (mode : Mode) (totalUnits w h : ℕ) : ℕ :=
  gridRows mode totalUnits * gridCellSize mode totalUnits w h +
    (gridRows mode totalUnits - 1) * gridGap mode totalUnits w h

/-- `self.start_x = int((canvas_width - grid_width) / 2)` (`int` truncates
towards zero, which is `Int.tdiv`). -/
def gridStartX (mode : Mode) (totalUnits w h : ℕ) : ℤ :=
  Int.tdiv ((w : ℤ) - (gridWidth mode totalUnits w h : ℤ)) 2

/-- `self.start_y = int((canvas_height - grid_height) / 2 + 60)`; the
exact value `(h - gh)/2 + 60 = (h - gh + 120)/2` truncated towards
zero. -/
def gridStartY (mode : Mode) (totalUnits w h : ℕ) : ℤ :=
  Int.tdiv ((h : ℤ) - (gridHeight mode totalUnits w h : ℤ) + 120) 2

/-- `GridLayout.get_cell_position`. -/
def gridCellPosition (mode : Mode) (totalUnits w h index : ℕ) : ℤ × ℤ :=
  let cols := gridColumns mode totalUnits
  let step : ℤ := (gridCellSize mode totalUnits w h : ℤ) + gridGap mode totalUnits w h
  (gridStartX mode totalUnits w h + (index % cols : ℕ) * step,
   gridStartY mode totalUnits w h + (index / cols : ℕ) * step)

/-! ### Atomic save (`WallpaperRenderer.save`) -/

/-- Contents of the two file paths `WallpaperRenderer.save` touches:
the destination `path` and the sibling `path + ".tmp"`.  `none` means
the file does not exist; image contents are abstracted to `ℕ`. -/
structure SaveFS where
  dest : Option ℕ
  temp : Option ℕ
deriving DecidableEq, Repr

/-- `self.img.save(temp_path, ...)`: on success the temp file holds the
complete image; on failure (disk full, permission denied, ...) the
exception propagates and the temp file may hold arbitrary partial
contents `leftover`. -/
def pilSave (img leftover : ℕ) (ok : Bool) (fs : SaveFS) : Bool × SaveFS :=
  if ok then (true, ⟨fs.dest, some img⟩) else (false, ⟨fs.dest, some leftover⟩)

/-- `os.replace(temp_path, path)`: atomic rename — on success the
destination now holds exactly the temp file's contents and the temp path
is gone; on failure both paths are unchanged. -/
def osReplace (ok : Bool) (fs : SaveFS) : Bool × SaveFS :=
  if ok then
    match fs.temp with
    | some v => (true, ⟨some v, none⟩)
    | none => (false, fs)
  else (false, fs)

/-- The cleanup in the `except` branch of `save`: `os.unlink(temp_path)`
if it exists (its own failure is swallowed; we model the unlink as
succeeding). -/
def removeTemp (fs : SaveFS) : SaveFS := ⟨fs.dest, none⟩

/-- `WallpaperRenderer.save(path)` as a state transformer with failure
injection: `okWrite` (`okReplace`) tells whether the PIL write (the
rename) succeeds.  The returned `Bool` is `true` for a normal return and
`false` when the exception is re-raised to the caller after cleanup.
The final existence check `os.path.exists(path)` is the test on
`fs.dest` after the rename. -/
def rendererSave (img leftover : ℕ) (okWrite okReplace : Bool) (fs : SaveFS) :
    Bool × SaveFS :=
  let (w, fs1) := pilSave img leftover okWrite fs
  if w then
    let (r, fs2) := osReplace okReplace fs1
    if r then
      if fs2.dest.isSome then (true, fs2)
      else (false, removeTemp fs2)
    else (false, removeTemp fs2)
  else (false, removeTemp fs1)

/-! ### Single-instance lock (`acquire_lock` / `release_lock` /
`WallpaperEngine.run_auto`) -/

/-- Contents of the lock marker file: `none` = absent, `some none` =
present with unparsable contents, `some (some pid)` = present holding a
decimal pid. -/
structure LockState where
  marker : Option (Option ℕ)
deriving DecidableEq, Repr

/-- Result of `acquire_lock`: normal return, or the `RuntimeError`
("Another LifeCalendar process is already running"). -/
inductive AcquireResult where
  | acquired
  | alreadyRunning
deriving DecidableEq, Repr

/-- The `os.open(LOCK_FILE, O_CREAT | O_EXCL | O_WRONLY)` step plus the
pid write: exclusive creation fails iff the file exists at that moment.
`raceWins` injects the race where another process creates the marker
(with contents `racer`) between our existence check and our create. -/
def createMarker (myPid : ℕ) (raceWins : Bool) (racer : Option ℕ) :
    AcquireResult × LockState :=
  if raceWins then (.alreadyRunning, ⟨some racer⟩)
  else (.acquired, ⟨some (some myPid)⟩)

/-- `acquire_lock`, parameterised by the pid-liveness probe
(`_is_process_running`), our own pid, and the creation-race injection.
Reads of the marker are modelled as returning its contents; unlinks
succeed. -/
def acquireLock (alive : ℕ → Bool) (myPid : ℕ) (raceWins : Bool)
    (racer : Option ℕ) (s : LockState) : AcquireResult × LockState :=
  match s.marker with
  | some (some pid) =>
    if alive pid then (.alreadyRunning, s)
    else createMarker myPid raceWins racer
  | some none => createMarker myPid raceWins racer
  | none => createMarker myPid raceWins racer

/-- `release_lock`: best-effort unconditional delete of the marker. -/
def releaseLock (_s : LockState) : LockState := ⟨none⟩

/-- `WallpaperEngine.run_auto`: `try: acquire_lock(); generate; set;
except Exception: return False; finally: release_lock()`.  `genOk` and
`setOk` inject the outcomes of `generate_wallpaper` and
`set_wallpaper`.  Returns the boolean result together with the final
lock-marker state. -/
def runAuto (alive : ℕ → Bool) (myPid : ℕ) (raceWins : Bool)
    (racer : Option ℕ) (genOk setOk : Bool) (s : LockState) :
    Bool × LockState :=
  let (r, s1) := acquireLock alive myPid raceWins racer s
  match r with
  | .alreadyRunning => (false, releaseLock s1)
  | .acquired =>
    if !genOk then (false, releaseLock s1)
    else if !setOk then (false, releaseLock s1)
    else (true, releaseLock s1)

/-! ### Config round-trip (`LifeCalendarGUI.save_config` /
`WallpaperEngine.load_config`) -/

/-- A configuration holding every key of `DEFAULT_CONFIG` (JSON
serialisation of strings and arbitrary-precision integers is lossless,
so `json.load(json.dump(v))` is the identity on these values). -/
structure Config where
  mode : String
  dob : String
  lifespan : ℤ
  goalStart : String
  goalEnd : String
  goalTitle : String
  goalSubtitle : String
  resolutionWidth : ℤ
  resolutionHeight : ℤ
  configVersion : ℤ
deriving DecidableEq, Repr

/-- `WallpaperEngine.DEFAULT_CONFIG`. -/
def DEFAULT_CONFIG : Config :=
  ⟨"life", "", 90, "", "", "", "", 1920, 1080, 2⟩

/-- The on-disk JSON document, one optional entry per configuration key
(a key may be missing from the file). -/
structure SavedConfig where
  mode : Option String
  dob : Option String
  lifespan : Option ℤ
  goalStart : Option String
  goalEnd : Option String
  goalTitle : Option String
  goalSubtitle : Option String
  resolutionWidth : Option ℤ
  resolutionHeight : Option ℤ
  configVersion : Option ℤ
deriving DecidableEq, Repr

/-- `LifeCalendarGUI.save_config`: `json.dump(self.config, f)` writes
every key of the config object. -/
def saveConfig (c : Config) : SavedConfig :=
  ⟨some c.mode, some c.dob, some c.lifespan, some c.goalStart,
   some c.goalEnd, some c.goalTitle, some c.goalSubtitle,
   some c.resolutionWidth, some c.resolutionHeight, some c.configVersion⟩

/-- `WallpaperEngine.load_config` on an existing, well-formed file:
`merged = DEFAULT_CONFIG.copy(); merged.update(loaded)` — each key takes
the file's value when present, the default otherwise. -/
def loadConfig (s : SavedConfig) : Config :=
  ⟨s.mode.getD DEFAULT_CONFIG.mode,
   s.dob.getD DEFAULT_CONFIG.dob,
   s.lifespan.getD DEFAULT_CONFIG.lifespan,
   s.goalStart.getD DEFAULT_CONFIG.goalStart,
   s.goalEnd.getD DEFAULT_CONFIG.goalEnd,
   s.goalTitle.getD DEFAULT_CONFIG.goalTitle,
   s.goalSubtitle.getD DEFAULT_CONFIG.goalSubtitle,
   s.resolutionWidth.getD DEFAULT_CONFIG.resolutionWidth,
   s.resolutionHeight.getD DEFAULT_CONFIG.resolutionHeight,
   s.configVersion.getD DEFAULT_CONFIG.configVersion⟩

end LifeCalendar

namespace LifeCalendar

/-! ## Helper lemmas about the date arithmetic -/

lemma rataDie_jan1 (y : ℕ) : (Date.mk y 1 1).rataDie = daysBeforeYear y + 1 := by
  simp [Date.rataDie, dayOfYearOf, daysBeforeMonthCommon]

lemma one_le_dayOfYearOf (y m d : ℕ) (hd : 1 ≤ d) : 1 ≤ dayOfYearOf y m d := by
  unfold dayOfYearOf
  omega

lemma dayOfYearOf_le (y m d : ℕ) (hm1 : 1 ≤ m) (hm : m ≤ 12) (hd : d ≤ daysInMonth y m) :
    dayOfYearOf y m d ≤ if isLeap y then 366 else 365 := by
  unfold daysInMonth at hd
  unfold dayOfYearOf daysBeforeMonthCommon
  interval_cases m <;> cases hL : isLeap y <;> simp [hL] at hd ⊢ <;> omega

lemma dayOfYearOf_dec31 (y : ℕ) :
    dayOfYearOf y 12 31 = if isLeap y then 366 else 365 := by
  unfold dayOfYearOf daysBeforeMonthCommon
  cases hL : isLeap y <;> simp [hL]

/-! ## C1: life-mode calculation formula and bounds -/

/-- C1: for every parseable dob with dob ≤ today and every lifespan in
[1, 150], `LifeCalendarData.calculate` returns
`totalUnits = floor(lifespan * 365.2425 / 7)` (exactly
`lifespan * 3652425 / 70000`), `filledUnits = min(floor(daysLived / 7),
totalUnits)`, and `0 ≤ filledUnits ≤ totalUnits`. -/
theorem life_calculate_spec (dob today : Date) (lifespan : ℤ)
    (h1 : 1 ≤ lifespan) (h2 : lifespan ≤ 150)
    (hord : dob.rataDie ≤ today.rataDie) :
    (lifeCalculate dob lifespan today).1 = lifespan * 3652425 / 70000 ∧
    (lifeCalculate dob lifespan today).2 =
      min (((today.rataDie : ℤ) - (dob.rataDie : ℤ)) / 7)
        (lifespan * 3652425 / 70000) ∧
    0 ≤ (lifeCalculate dob lifespan today).2 ∧
    (lifeCalculate dob lifespan today).2 ≤ (lifeCalculate dob lifespan today).1 := by
  have hcl : clampLifespan lifespan = lifespan := by
    unfold clampLifespan
    omega
  have hdiv : lifespan * 3652425 / 10000 / 7 = lifespan * 3652425 / 70000 := by
    omega
  have hd : (0 : ℤ) ≤ (today.rataDie : ℤ) - (dob.rataDie : ℤ) := by
    omega
  have htw : 0 ≤ lifespan * 3652425 / 10000 / 7 := by
    positivity
  refine ⟨?_, ?_, ?_, ?_⟩
  · simp only [lifeCalculate, lifeTotalDays, hcl]
    exact hdiv
  · simp only [lifeCalculate, lifeTotalDays, hcl, hdiv]
  · simp only [lifeCalculate, lifeTotalDays, hcl]
    exact le_min (Int.ediv_nonneg hd (by norm_num)) htw
  · simp only [lifeCalculate]
    exact min_le_right _ _

/-- Witness for C1 at dob = 1990-05-15, today = 2024-05-15, lifespan 90. -/
theorem life_calculate_spec_witness :
    (lifeCalculate ⟨1990, 5, 15⟩ 90 ⟨2024, 5, 15⟩).1 = 90 * 3652425 / 70000 ∧
    (lifeCalculate ⟨1990, 5, 15⟩ 90 ⟨2024, 5, 15⟩).2 =
      min (((Date.rataDie ⟨2024, 5, 15⟩ : ℤ) - (Date.rataDie ⟨1990, 5, 15⟩ : ℤ)) / 7)
        (90 * 3652425 / 70000) ∧
    0 ≤ (lifeCalculate ⟨1990, 5, 15⟩ 90 ⟨2024, 5, 15⟩).2 ∧
    (lifeCalculate ⟨1990, 5, 15⟩ 90 ⟨2024, 5, 15⟩).2 ≤
      (lifeCalculate ⟨1990, 5, 15⟩ 90 ⟨2024, 5, 15⟩).1 :=
  life_calculate_spec ⟨1990, 5, 15⟩ ⟨2024, 5, 15⟩ 90 (by norm_num) (by norm_num)
    (by decide)

/-! ## C8: calculator-layer bounds without the dob ≤ today restriction -/

/-- C8 counterexample: with a future dob (2030-01-01 seen from
2024-05-15) the calculator returns a negative `filledUnits` (-294), so
`filledUnits ∈ [0, totalUnits]` fails without the `dob ≤ today`
restriction. -/
theorem life_calculate_negative_filled :
    (lifeCalculate ⟨2030, 1, 1⟩ 90 ⟨2024, 5, 15⟩).2 = -294 ∧
    (lifeCalculate ⟨2030, 1, 1⟩ 90 ⟨2024, 5, 15⟩).2 < 0 := by
  decide

/-- C8 amended: for every parseable dob with dob ≤ today and EVERY
integer lifespan (the clamp makes any lifespan legal at this layer),
`LifeCalendarData.calculate` returns `totalUnits > 0` and
`filledUnits ∈ [0, totalUnits]`. -/
theorem life_calculate_bounds (dob today : Date) (lifespan : ℤ)
    (hord : dob.rataDie ≤ today.rataDie) :
    0 < (lifeCalculate dob lifespan today).1 ∧
    0 ≤ (lifeCalculate dob lifespan today).2 ∧
    (lifeCalculate dob lifespan today).2 ≤ (lifeCalculate dob lifespan today).1 := by
  have hcl1 : 1 ≤ clampLifespan lifespan := by
    unfold clampLifespan
    omega
  have htw : 0 < lifeTotalDays (clampLifespan lifespan) / 7 := by
    unfold lifeTotalDays
    have : 3652425 ≤ clampLifespan lifespan * 3652425 := by nlinarith
    omega
  have hd : (0 : ℤ) ≤ (today.rataDie : ℤ) - (dob.rataDie : ℤ) := by
    omega
  refine ⟨htw, ?_, ?_⟩
  · simp only [lifeCalculate]
    exact le_min (Int.ediv_nonneg hd (by norm_num)) (le_of_lt htw)
  · simp only [lifeCalculate]
    exact min_le_right _ _

/-- Witness for the amended C8, with a lifespan of 2000 (clamped to 150)
and dob 2000-02-29 ≤ today 2024-01-31. -/
theorem life_calculate_bounds_witness :
    0 < (lifeCalculate ⟨2000, 2, 29⟩ 2000 ⟨2024, 1, 31⟩).1 ∧
    0 ≤ (lifeCalculate ⟨2000, 2, 29⟩ 2000 ⟨2024, 1, 31⟩).2 ∧
    (lifeCalculate ⟨2000, 2, 29⟩ 2000 ⟨2024, 1, 31⟩).2 ≤
      (lifeCalculate ⟨2000, 2, 29⟩ 2000 ⟨2024, 1, 31⟩).1 :=
  life_calculate_bounds ⟨2000, 2, 29⟩ ⟨2024, 1, 31⟩ 2000 (by decide)

/-! ## C9: the lifespan-90 scenario -/

/-- C9 counterexample: with lifespan 90 the code (and the exact value of
`floor(90 * 365.2425 / 7)`) is 4695, not the 4698 the claim states. -/
theorem life_total_weeks_90_ne_4698 :
    (lifeCalculate ⟨1990, 5, 15⟩ 90 ⟨2024, 5, 15⟩).1 = 4695 ∧ (4695 : ℤ) ≠ 4698 := by
  decide

/-- C9 amended: for lifespan 90, dob 1990-05-15 and today 2024-05-15 the
calculator returns `totalWeeks = floor(90 * 365.2425 / 7) = 4695` and
`weeksLived = floor(12419 / 7) = 1774`, where 12419 is the day span. -/
theorem life_scenario_1990 :
    lifeCalculate ⟨1990, 5, 15⟩ 90 ⟨2024, 5, 15⟩ = (4695, 1774) ∧
    (Date.rataDie ⟨2024, 5, 15⟩ : ℤ) - (Date.rataDie ⟨1990, 5, 15⟩ : ℤ) = 12419 ∧
    (1774 : ℤ) = 12419 / 7 ∧
    (4695 : ℤ) = 90 * 3652425 / 70000 := by
  decide

/-! ## C2: year-mode calculation -/

/-- C2: for any valid system date, `YearCalendarData.calculate` returns
`totalUnits = 366` in a leap year and `365` otherwise, and
`filledUnits = (today - Jan 1) in days + 1` clamped to `totalUnits`;
the clamp is a no-op (the day number never reaches `totalUnits + 1`),
and on Dec 31 `filledUnits = totalUnits` exactly. -/
theorem year_calculate_spec (today : Date) (hv : today.valid) :
    (yearCalculate today).1 = (if isLeap today.year then 366 else 365) ∧
    (yearCalculate today).2 =
      (today.rataDie - (Date.mk today.year 1 1).rataDie) + 1 ∧
    (yearCalculate today).2 ≤ (yearCalculate today).1 ∧
    (today.month = 12 → today.day = 31 →
      (yearCalculate today).2 = (yearCalculate today).1) := by
  obtain ⟨hy, hm1, hm, hd1, hd⟩ := hv
  have hdoy : (today.rataDie - (Date.mk today.year 1 1).rataDie) + 1 =
      dayOfYearOf today.year today.month today.day := by
    have h1 := one_le_dayOfYearOf today.year today.month today.day hd1
    rw [rataDie_jan1]
    unfold Date.rataDie
    omega
  have hle : dayOfYearOf today.year today.month today.day ≤
      (if isLeap today.year then 366 else 365) :=
    dayOfYearOf_le today.year today.month today.day hm1 hm hd
  have h2 : (yearCalculate today).2 =
      (today.rataDie - (Date.mk today.year 1 1).rataDie) + 1 := by
    simp only [yearCalculate]
    rw [hdoy]
    exact min_eq_left hle
  refine ⟨rfl, h2, ?_, ?_⟩
  · simp only [yearCalculate]
    exact min_le_right _ _
  · intro h12 h31
    rw [h2, hdoy, h12, h31, dayOfYearOf_dec31]
    rfl

/-- Witness for C2 at 2024-12-31 (leap year, Dec 31) and, through a
second application, at the spec's scenario 2024-03-01. -/
theorem year_calculate_spec_witness :
    (yearCalculate ⟨2024, 12, 31⟩).2 = (yearCalculate ⟨2024, 12, 31⟩).1 ∧
    (yearCalculate ⟨2024, 3, 1⟩).1 = 366 ∧
    (yearCalculate ⟨2024, 3, 1⟩).2 = 61 :=
  ⟨(year_calculate_spec ⟨2024, 12, 31⟩ (by decide)).2.2.2 rfl rfl,
   by
    have h := (year_calculate_spec ⟨2024, 3, 1⟩ (by decide)).1
    simpa using h,
   by
    have h := (year_calculate_spec ⟨2024, 3, 1⟩ (by decide)).2.1
    simpa using h⟩

/-! ## C3: goal-mode construction and calculation -/

/-- C3: `GoalCalendarData` construction fails when either date is
unparsable or `end ≤ start`, succeeds when `start < end`, and then
`calculate` returns `totalUnits = end - start` in days with
`filledUnits = 0` before the goal, `totalUnits` after it, and
`today - start` inside it. -/
theorem goal_spec (startOpt endOpt : Option Date) (ti su : String) (today : Date) :
    (startOpt = none → ∃ msg, goalMake startOpt endOpt ti su = .error msg) ∧
    (endOpt = none → ∃ msg, goalMake startOpt endOpt ti su = .error msg) ∧
    (∀ s e, startOpt = some s → endOpt = some e →
      (e.rataDie ≤ s.rataDie → ∃ msg, goalMake startOpt endOpt ti su = .error msg) ∧
      (s.rataDie < e.rataDie → ∃ g, goalMake startOpt endOpt ti su = .ok g) ∧
      (∀ g, goalMake startOpt endOpt ti su = .ok g →
        g.startD = s ∧ g.endD = e ∧
        (goalCalculate g today).1 = (e.rataDie : ℤ) - (s.rataDie : ℤ) ∧
        (today.rataDie < s.rataDie → (goalCalculate g today).2 = 0) ∧
        (e.rataDie < today.rataDie →
          (goalCalculate g today).2 = (goalCalculate g today).1) ∧
        (s.rataDie ≤ today.rataDie → today.rataDie ≤ e.rataDie →
          (goalCalculate g today).2 = (today.rataDie : ℤ) - (s.rataDie : ℤ)))) := by
  refine ⟨?_, ?_, ?_⟩
  · rintro rfl
    exact ⟨_, rfl⟩
  · rintro rfl
    cases startOpt <;> exact ⟨_, rfl⟩
  · rintro s e rfl rfl
    refine ⟨?_, ?_, ?_⟩
    · intro hle
      refine ⟨"End date must be after start date", ?_⟩
      simp [goalMake, hle]
    · intro hlt
      refine ⟨⟨s, e, if ti = "" then "GOAL COUNTDOWN" else pyStrip ti, pyStrip su⟩, ?_⟩
      simp [goalMake, Nat.not_le.mpr hlt]
    · intro g hg
      by_cases hle : e.rataDie ≤ s.rataDie
      · simp [goalMake, hle] at hg
      · simp [goalMake, hle] at hg
        subst hg
        refine ⟨rfl, rfl, rfl, ?_, ?_, ?_⟩
        · intro hlt
          simp [goalCalculate, hlt]
        · intro hgt
          have h1 : ¬ today.rataDie < s.rataDie := by omega
          simp [goalCalculate, h1, hgt]
        · intro hge hle2
          have h1 : ¬ today.rataDie < s.rataDie := by omega
          have h2 : ¬ e.rataDie < today.rataDie := by omega
          simp [goalCalculate, h1, h2]

/-- Witness for C3 on the spec's scenario: goal 2024-01-01 to 2024-12-31
seen from 2024-07-01 gives 365 total days and 182 passed days. -/
theorem goal_spec_witness :
    (goalCalculate ⟨⟨2024, 1, 1⟩, ⟨2024, 12, 31⟩, "Goal", ""⟩ ⟨2024, 7, 1⟩).1 = 365 ∧
    (goalCalculate ⟨⟨2024, 1, 1⟩, ⟨2024, 12, 31⟩, "Goal", ""⟩ ⟨2024, 7, 1⟩).2 = 182 ∧
    (∃ g, goalMake (some ⟨2024, 1, 1⟩) (some ⟨2024, 12, 31⟩) "Goal" "" = .ok g) ∧
    (∃ msg, goalMake (some ⟨2024, 12, 31⟩) (some ⟨2024, 1, 1⟩) "Goal" "" = .error msg) := by
  have h := (goal_spec (some ⟨2024, 1, 1⟩) (some ⟨2024, 12, 31⟩) "Goal" "" ⟨2024, 7, 1⟩).2.2
    ⟨2024, 1, 1⟩ ⟨2024, 12, 31⟩ rfl rfl
  have hrev := (goal_spec (some ⟨2024, 12, 31⟩) (some ⟨2024, 1, 1⟩) "Goal" "" ⟨2024, 7, 1⟩).2.2
    ⟨2024, 12, 31⟩ ⟨2024, 1, 1⟩ rfl rfl
  have hok := h.2.2 ⟨⟨2024, 1, 1⟩, ⟨2024, 12, 31⟩, "Goal", ""⟩ rfl
  refine ⟨?_, ?_, h.2.1 (by decide), hrev.1 (by decide)⟩
  · rw [hok.2.2.1]
    decide
  · rw [hok.2.2.2.2.2 (by decide) (by decide)]
    decide

/-! ## C4: grid layout bounds -/

lemma one_le_gridTotal (t : ℕ) : 1 ≤ gridTotal t := le_max_left 1 t

lemma one_le_gridColumns (mode : Mode) (t : ℕ) : 1 ≤ gridColumns mode t := by
  cases mode <;> simp only [gridColumns, gridTotal] <;> (try split_ifs) <;> omega

lemma gridColumns_le_60 (mode : Mode) (t : ℕ) : gridColumns mode t ≤ 60 := by
  cases mode <;> simp only [gridColumns, gridTotal] <;> (try split_ifs) <;> omega

lemma one_le_gridRows (mode : Mode) (t : ℕ) : 1 ≤ gridRows mode t := by
  have h1 := one_le_gridColumns mode t
  have h2 := one_le_gridTotal t
  unfold gridRows
  rw [Nat.le_div_iff_mul_le (by omega)]
  omega

lemma cols_mul_cellSize_le (mode : Mode) (t w h : ℕ) :
    gridColumns mode t * gridCellSize mode t w h ≤ (9 * w) / 10 := by
  have hc : gridCellSize mode t w h ≤ (9 * w) / (10 * gridColumns mode t) :=
    le_trans (min_le_left _ _) (min_le_left _ _)
  have h2 : gridColumns mode t * ((9 * w) / (10 * gridColumns mode t)) ≤ (9 * w) / 10 := by
    rw [← Nat.div_div_eq_div_mul, mul_comm]
    exact Nat.div_mul_le_self _ _
  exact le_trans (Nat.mul_le_mul_left _ hc) h2

lemma rows_mul_cellSize_le (mode : Mode) (t w h : ℕ) :
    gridRows mode t * gridCellSize mode t w h ≤ (3 * h) / 4 := by
  have hc : gridCellSize mode t w h ≤ (3 * h) / (4 * gridRows mode t) :=
    le_trans (min_le_left _ _) (min_le_right _ _)
  have h2 : gridRows mode t * ((3 * h) / (4 * gridRows mode t)) ≤ (3 * h) / 4 := by
    rw [← Nat.div_div_eq_div_mul, mul_comm]
    exact Nat.div_mul_le_self _ _
  exact le_trans (Nat.mul_le_mul_left _ hc) h2

/-- C4 counterexample: with a canvas of exactly 800×600, goal mode with
100000 units yields `cellSize = 0` (violating `cellSize ≥ 1`), and life
mode with 52 units yields `gridWidth = 778 > 720 = 0.9 * 800` (violating
the 90%-width bound). -/
theorem grid_layout_claim_false :
    gridCellSize .goal 100000 800 600 = 0 ∧
    gridWidth .life 52 800 600 = 778 ∧
    ¬ (10 * gridWidth .life 52 800 600 ≤ 9 * 800) := by
  decide

/-- C4 amended: for every mode, `totalUnits ≥ 1` and canvas at least
800×600, the layout satisfies `gap ≥ 2` and `cellSize ≤ 20`; the cells
alone fit the 90%/75% bounds (`columns * cellSize ≤ 0.9 * width`,
`rows * cellSize ≤ 0.75 * height`); `cellSize ≥ 1` holds exactly when
the rows fit the available height (`4 * rows ≤ 3 * height`) — not for
every `totalUnits`; and the full grid including gaps can exceed the
bounds only by the gap total (`gridWidth ≤ floor(0.9 * width) +
(columns - 1) * gap`, and the height analogue). -/
theorem grid_layout_amended (mode : Mode) (total w h : ℕ)
    (_ht : 1 ≤ total) (hw : 800 ≤ w) (_hh : 600 ≤ h) :
    2 ≤ gridGap mode total w h ∧
    gridCellSize mode total w h ≤ 20 ∧
    10 * (gridColumns mode total * gridCellSize mode total w h) ≤ 9 * w ∧
    4 * (gridRows mode total * gridCellSize mode total w h) ≤ 3 * h ∧
    (1 ≤ gridCellSize mode total w h ↔ 4 * gridRows mode total ≤ 3 * h) ∧
    gridWidth mode total w h ≤
      (9 * w) / 10 + (gridColumns mode total - 1) * gridGap mode total w h ∧
    gridHeight mode total w h ≤
      (3 * h) / 4 + (gridRows mode total - 1) * gridGap mode total w h := by
  have hcols1 := one_le_gridColumns mode total
  have hcols60 := gridColumns_le_60 mode total
  have hrows1 := one_le_gridRows mode total
  have hcw := cols_mul_cellSize_le mode total w h
  have hrh := rows_mul_cellSize_le mode total w h
  refine ⟨le_max_left _ _, min_le_right _ _, ?_, ?_, ?_, ?_, ?_⟩
  · have h10 : 10 * ((9 * w) / 10) ≤ 9 * w := by omega
    exact le_trans (Nat.mul_le_mul_left _ hcw) h10
  · have h4 : 4 * ((3 * h) / 4) ≤ 3 * h := by omega
    exact le_trans (Nat.mul_le_mul_left _ hrh) h4
  · unfold gridCellSize
    rw [le_min_iff, le_min_iff]
    constructor
    · rintro ⟨⟨-, hb⟩, -⟩
      have := (Nat.le_div_iff_mul_le (show 0 < 4 * gridRows mode total by omega)).mp hb
      omega
    · intro h4
      refine ⟨⟨?_, ?_⟩, by norm_num⟩
      · rw [Nat.le_div_iff_mul_le (by omega)]
        omega
      · rw [Nat.le_div_iff_mul_le (by omega)]
        omega
  · unfold gridWidth
    exact Nat.add_le_add_right hcw _
  · unfold gridHeight
    exact Nat.add_le_add_right hrh _

/-- Witness for the amended C4: year mode, 366 units, 1920×1080. -/
theorem grid_layout_amended_witness :
    2 ≤ gridGap .year 366 1920 1080 ∧
    gridCellSize .year 366 1920 1080 ≤ 20 ∧
    10 * (gridColumns .year 366 * gridCellSize .year 366 1920 1080) ≤ 9 * 1920 ∧
    4 * (gridRows .year 366 * gridCellSize .year 366 1920 1080) ≤ 3 * 1080 ∧
    (1 ≤ gridCellSize .year 366 1920 1080 ↔ 4 * gridRows .year 366 ≤ 3 * 1080) ∧
    gridWidth .year 366 1920 1080 ≤
      (9 * 1920) / 10 + (gridColumns .year 366 - 1) * gridGap .year 366 1920 1080 ∧
    gridHeight .year 366 1920 1080 ≤
      (3 * 1080) / 4 + (gridRows .year 366 - 1) * gridGap .year 366 1920 1080 :=
  grid_layout_amended .year 366 1920 1080 (by norm_num) (by norm_num) (by norm_num)

/-! ## C5: atomic save -/

/-- C5: `WallpaperRenderer.save` writes the image to the temporary
sibling and rename-replaces the destination; whenever any step fails,
the destination is unchanged, the temporary file is removed, and the
failure is re-raised (result `false`); on success the destination holds
the new image and the temporary file is gone. -/
theorem renderer_save_atomic (img leftover : ℕ) (okWrite okReplace : Bool)
    (fs : SaveFS) :
    ((rendererSave img leftover okWrite okReplace fs).1 = false →
      (rendererSave img leftover okWrite okReplace fs).2.dest = fs.dest ∧
      (rendererSave img leftover okWrite okReplace fs).2.temp = none) ∧
    ((rendererSave img leftover okWrite okReplace fs).1 = true →
      (rendererSave img leftover okWrite okReplace fs).2.dest = some img ∧
      (rendererSave img leftover okWrite okReplace fs).2.temp = none) := by
  cases okWrite <;> cases okReplace <;>
    simp [rendererSave, pilSave, osReplace, removeTemp]

/-- Witness for C5: a failed PIL write over an existing destination
leaves the destination intact and no temp file; a fully successful save
installs the new image. -/
theorem renderer_save_atomic_witness :
    ((rendererSave 5 9 false true ⟨some 1, none⟩).2.dest = some 1 ∧
     (rendererSave 5 9 false true ⟨some 1, none⟩).2.temp = none) ∧
    ((rendererSave 5 9 true true ⟨some 1, none⟩).2.dest = some 5 ∧
     (rendererSave 5 9 true true ⟨some 1, none⟩).2.temp = none) :=
  ⟨(renderer_save_atomic 5 9 false true ⟨some 1, none⟩).1 rfl,
   (renderer_save_atomic 5 9 true true ⟨some 1, none⟩).2 rfl⟩

/-! ## C6: lock acquisition -/

/-- C6: `acquire_lock` fails with AlreadyRunning (leaving the marker
untouched) when the marker records a live pid; when the marker is
absent, unparsable, or records a dead pid, the stale marker is removed
and acquisition proceeds by exclusive creation — writing the current
pid on success, and failing with AlreadyRunning if another process wins
the creation race. -/
theorem acquire_lock_spec (alive : ℕ → Bool) (myPid : ℕ) (raceWins : Bool)
    (racer : Option ℕ) (s : LockState) :
    (∀ pid, s.marker = some (some pid) → alive pid = true →
      acquireLock alive myPid raceWins racer s = (.alreadyRunning, s)) ∧
    ((s.marker = none ∨ s.marker = some none ∨
      ∃ pid, s.marker = some (some pid) ∧ alive pid = false) →
      (raceWins = false →
        acquireLock alive myPid raceWins racer s = (.acquired, ⟨some (some myPid)⟩)) ∧
      (raceWins = true →
        (acquireLock alive myPid raceWins racer s).1 = .alreadyRunning)) := by
  constructor
  · intro pid hm ha
    simp [acquireLock, hm, ha]
  · intro hcase
    have hc : acquireLock alive myPid raceWins racer s =
        createMarker myPid raceWins racer := by
      rcases hcase with h | h | ⟨pid, h, ha⟩
      · simp [acquireLock, h]
      · simp [acquireLock, h]
      · simp [acquireLock, h, ha]
    rw [hc]
    constructor
    · intro hr
      subst hr
      rfl
    · intro hr
      subst hr
      rfl

/-- Witness for C6: a marker held by live pid 42 blocks pid 7; a marker
held by dead pid 99 is reclaimed and replaced by pid 7's marker. -/
theorem acquire_lock_spec_witness :
    acquireLock (fun pid => pid == 42) 7 false none ⟨some (some 42)⟩ =
      (.alreadyRunning, ⟨some (some 42)⟩) ∧
    acquireLock (fun pid => pid == 42) 7 false none ⟨some (some 99)⟩ =
      (.acquired, ⟨some (some 7)⟩) :=
  ⟨(acquire_lock_spec (fun pid => pid == 42) 7 false none ⟨some (some 42)⟩).1
      42 rfl rfl,
   ((acquire_lock_spec (fun pid => pid == 42) 7 false none ⟨some (some 99)⟩).2
      (Or.inr (Or.inr ⟨99, rfl, rfl⟩))).1 rfl⟩

/-! ## C7: a contended run must not delete the live holder's marker -/

/-- C7 (code bug evidence): when pid 7 calls `run_auto` while the marker
is held by the live process 42, the run fails with lock contention —
but the `finally: release_lock()` clause then deletes process 42's
marker: the final marker state is `none`, not the original
`some (some 42)` the claim requires. -/
theorem run_auto_deletes_live_holder_marker :
    runAuto (fun pid => pid == 42) 7 false none true true ⟨some (some 42)⟩ =
      (false, ⟨none⟩) ∧
    (⟨none⟩ : LockState) ≠ ⟨some (some 42)⟩ := by
  decide

/-! ## C10: config round-trip -/

/-- C10: saving a config object holding every configuration key and
loading it back through the engine's defaults merge returns the same
config: `loadConfig(saveConfig(cfg)) = cfg` (for every such config, valid
or not). -/
theorem config_round_trip (cfg : Config) : loadConfig (saveConfig cfg) = cfg := rfl

end LifeCalendar
